import Mathlib

/-!
Verification of the authentication front-end module (src/JS/auth.js).

The JavaScript source is shallowly embedded: each function of the module
becomes a Lean definition over explicit state, and the browser effects a
handler performs (network call, durable-storage writes, status messages,
button state, scheduled navigation) are collected into effect records.
-/

/-- JavaScript runtime values, restricted to the shapes the module
inspects: the fields token, message and error of a parsed JSON body are
read only for truthiness and string conversion. -/
inductive JSVal where
  | undefined
  | null
  | bool (b : Bool)
  | num (n : Int)
  | str (s : String)
deriving DecidableEq, Repr

/-- JavaScript truthiness of a value (the test performed by if (!x) and
by the || operator). -/
def jsTruthy : JSVal → Bool
  | .undefined => false
  | .null => false
  | .bool b => b
  | .num n => n != 0
  | .str s => s != ""

/-- JavaScript String(x) conversion, as applied by the Error constructor
and by localStorage.setItem. -/
def jsToString : JSVal → String
  | .undefined => "undefined"
  | .null => "null"
  | .bool b => if b then "true" else "false"
  | .num n => toString n
  | .str s => s

/-- The JavaScript a || b operator on values: result is a when a is
truthy, b otherwise. -/
def jsOr (a b : JSVal) : JSVal := if jsTruthy a then a else b

/-- The JavaScript a || b operator specialised to strings, as used in
err.message || fallback. -/
def jsOrStr (a b : String) : String := if a = "" then b else a

/-- Whitespace characters removed by the JavaScript String.prototype.trim
method: WhiteSpace and LineTerminator code points. -/
def isJsWhitespace (c : Char) : Bool :=
  c.toNat = 0x9 || c.toNat = 0xA || c.toNat = 0xB || c.toNat = 0xC ||
  c.toNat = 0xD || c.toNat = 0x20 || c.toNat = 0xA0 || c.toNat = 0x1680 ||
  (0x2000 ≤ c.toNat && c.toNat ≤ 0x200A) ||
  c.toNat = 0x2028 || c.toNat = 0x2029 || c.toNat = 0x202F ||
  c.toNat = 0x205F || c.toNat = 0x3000 || c.toNat = 0xFEFF

/-- The JavaScript String.prototype.trim method: removes leading and
trailing whitespace. -/
def jsTrim (s : String) : String :=
  String.mk (((s.data.dropWhile isJsWhitespace).reverse.dropWhile isJsWhitespace).reverse)

/-- Parsed JSON response body, restricted to the three fields the module
reads (absent fields are undefined). -/
structure JsonBody where
  token : JSVal := .undefined
  message : JSVal := .undefined
  error : JSVal := .undefined
deriving DecidableEq, Repr

/-- Outcome of res.json(): either the body parses as JSON or parsing
throws. -/
inductive BodyParse where
  | invalid
  | json (j : JsonBody)
deriving DecidableEq, Repr

/-- The message of the error thrown by safeFetch when the timeout aborts
the request (auth.js line 108). -/
def timedOutMessage : String := "⏳ Request timed out. Please try again."

/-- The default timeout parameter of safeFetch (auth.js line 78). -/
def safeFetchDefaultTimeout : Nat := 10000

/-- Response processing of safeFetch (auth.js lines 92-105): parse the
body as JSON, throwing Invalid server response when parsing fails; on a
non-ok status throw with message data.message || data.error ||
HTTP status; otherwise return the parsed body. -/
def safeFetchHandleResponse (ok : Bool) (status : Nat) (body : BodyParse) :
    Except String JsonBody :=
  match body with
  | .invalid => .error "Invalid server response"
  | .json data =>
    if ok then .ok data
    else .error (jsToString (jsOr data.message
      (jsOr data.error (.str ("HTTP " ++ toString status)))))

/-- Timing and content of the underlying fetch: when (in milliseconds
from the call) the response settles, if ever, and its status and body. -/
structure FetchBehavior where
  arrivesAt : Option Nat
  ok : Bool
  status : Nat
  body : BodyParse
deriving DecidableEq, Repr

deriving instance DecidableEq for Except

/-- Observable outcome of one safeFetch call: its result and whether the
abort controller fired on the in-flight request. -/
structure SafeFetchRun where
  result : Except String JsonBody
  aborted : Bool
deriving DecidableEq, Repr

/-- The safeFetch wrapper (auth.js lines 78-112): a timer is armed to
abort the request after the timeout; when the response settles strictly
before the timeout the timer is cleared and the response is processed,
otherwise the abort fires and the AbortError is rethrown as the
timed-out error. -/
def safeFetch (timeout : Nat) (f : FetchBehavior) : SafeFetchRun :=
  match f.arrivesAt with
  | none => { result := .error timedOutMessage, aborted := true }
  | some t =>
    if t < timeout then
      { result := safeFetchHandleResponse f.ok f.status f.body, aborted := false }
    else
      { result := .error timedOutMessage, aborted := true }

/-- The safeFetch wrapper called without a timeout argument, so with the
default of 10000 ms. -/
def safeFetchDefault (f : FetchBehavior) : SafeFetchRun :=
  safeFetch safeFetchDefaultTimeout f

/-- The DOM element with id errorMessage, as mutated by showMessage. -/
structure MsgEl where
  textContent : String
  className : String
  display : String
deriving DecidableEq, Repr

/-- State touched by showMessage (auth.js lines 19-32): the status
element if present in the document, the timer handle stored on the
function object (showMessage._t), the live timers scheduled by
showMessage as (id, delay) pairs, and a fresh-id counter. -/
structure MsgState where
  el : Option MsgEl
  hideTimer : Option Nat
  timers : List (Nat × Nat)
  nextId : Nat
deriving DecidableEq, Repr

/-- The clearTimeout browser primitive on the timer list: cancels the
timer with the given id, a no-op on an undefined handle. -/
def clearTimeoutOn (timers : List (Nat × Nat)) (id : Option Nat) :
    List (Nat × Nat) :=
  match id with
  | none => timers
  | some i => timers.filter (fun t => t.1 ≠ i)

/-- The showMessage function (auth.js lines 19-32): a silent no-op when
the status element is absent; otherwise sets the element text, class
and visibility, cancels the previously scheduled hide timer, and
schedules a new hide after 5000 ms. -/
def showMessage (message : String) (type : String) (s : MsgState) :
    MsgState :=
  match s.el with
  | none => s
  | some _ =>
    { el := some { textContent := message,
                   className := "message " ++ type,
                   display := "block" }
      hideTimer := some s.nextId
      timers := clearTimeoutOn s.timers s.hideTimer ++ [(s.nextId, 5000)]
      nextId := s.nextId + 1 }

/-- State of the console-mirror IIFE (auth.js lines 40-73): the
re-entrancy guard flag, the showMessage state, and the calls delivered
to the original console channels as (channel, args) pairs. -/
structure ConsoleState where
  inShowMessage : Bool
  msg : MsgState
  logged : List (String × List String)
deriving DecidableEq, Repr

/-- The safeShowMessage helper (auth.js lines 49-57): skips the mirror
entirely while a mirrored call is already in flight; otherwise raises
the guard, calls showMessage, and lowers the guard in a finally block. -/
def safeShowMessage (m : String) (type : String) (s : ConsoleState) :
    ConsoleState :=
  if s.inShowMessage then s
  else
    let s1 : ConsoleState := { s with inShowMessage := true }
    let s2 : ConsoleState := { s1 with msg := showMessage m type s1.msg }
    { s2 with inShowMessage := false }

/-- The wrapped console.log (auth.js lines 59-62): mirrors the joined
arguments to the message display as a success message, then performs
the original logging with the same arguments. -/
def consoleLogWrapped (args : List String) (s : ConsoleState) :
    ConsoleState :=
  let s1 := safeShowMessage ("ℹ️ " ++ String.intercalate " " args) "success" s
  { s1 with logged := s1.logged ++ [("log", args)] }

/-- The wrapped console.warn (auth.js lines 64-67). -/
def consoleWarnWrapped (args : List String) (s : ConsoleState) :
    ConsoleState :=
  let s1 := safeShowMessage ("⚠️ " ++ String.intercalate " " args) "error" s
  { s1 with logged := s1.logged ++ [("warn", args)] }

/-- The wrapped console.error (auth.js lines 69-72). -/
def consoleErrorWrapped (args : List String) (s : ConsoleState) :
    ConsoleState :=
  let s1 := safeShowMessage ("❌ " ++ String.intercalate " " args) "error" s
  { s1 with logged := s1.logged ++ [("error", args)] }

/-- A submit button as mutated by setButtonLoading: its disabled flag
and its visible label (innerHTML and textContent conflated). -/
structure ButtonState where
  disabled : Bool
  label : String
deriving DecidableEq, Repr

/-- The label installed while a button is loading (auth.js line 121). -/
def loadingLabel : String := "<span class=\"spinner\"></span> Loading..."

/-- The setButtonLoading helper (auth.js lines 117-126): a no-op on a
missing button; otherwise disables the button and shows the spinner, or
re-enables it and restores the given default text. -/
def setButtonLoading (button : Option ButtonState) (loading : Bool)
    (defaultText : String) : Option ButtonState :=
  match button with
  | none => none
  | some _ =>
    if loading then some { disabled := true, label := loadingLabel }
    else some { disabled := false, label := defaultText }

/-- Raw field values of the signup form at submission time. -/
structure SignupInput where
  usernameRaw : String
  emailRaw : String
  passwordRaw : String
deriving DecidableEq, Repr

/-- The JSON body sent to the register endpoint (auth.js line 151). -/
structure RegisterBody where
  username : String
  email : String
  password : String
deriving DecidableEq, Repr

/-- Effects performed by one run of the signup submit handler: the
network call if any, the showError and showSuccess calls as
(text, kind) pairs, the setButtonLoading calls as (loading, default)
pairs, the final button state, whether the active class was removed
from the container, and the console.error calls as
(first argument, error message) pairs. -/
structure SignupEffects where
  netCall : Option RegisterBody
  messages : List (String × String)
  buttonEvents : List (Bool × String)
  buttonFinal : Option ButtonState
  containerActiveRemoved : Bool
  consoleErrors : List (String × String)
deriving DecidableEq, Repr

/-- Default label of the signup button (auth.js lines 146, 160). -/
def signupButtonDefault : String := "Sign Up"

/-- The signup submit handler (auth.js lines 131-162). Inputs are the
raw form fields, the button found in the document, and the outcome of
the awaited safeFetch call against the register endpoint. -/
def signupHandler (inp : SignupInput) (button : Option ButtonState)
    (net : Except String JsonBody) : SignupEffects :=
  let username := jsTrim inp.usernameRaw
  let email := jsTrim inp.emailRaw
  let password := inp.passwordRaw
  if username = "" ∨ email = "" ∨ password = "" then
    { netCall := none
      messages := [("⚠️ All fields are required.", "error")]
      buttonEvents := []
      buttonFinal := button
      containerActiveRemoved := false
      consoleErrors := [] }
  else if password.length < 6 then
    { netCall := none
      messages := [("⚠️ Password must be at least 6 characters.", "error")]
      buttonEvents := []
      buttonFinal := button
      containerActiveRemoved := false
      consoleErrors := [] }
  else
    let busy := setButtonLoading button true signupButtonDefault
    match net with
    | .ok _ =>
      { netCall := some { username := username, email := email,
                          password := password }
        messages := [("✅ Registration successful! You can now log in.",
                      "success")]
        buttonEvents := [(true, signupButtonDefault),
                         (false, signupButtonDefault)]
        buttonFinal := setButtonLoading busy false signupButtonDefault
        containerActiveRemoved := true
        consoleErrors := [] }
    | .error m =>
      { netCall := some { username := username, email := email,
                          password := password }
        messages := [(jsOrStr m "❌ Registration failed. Try again.",
                      "error")]
        buttonEvents := [(true, signupButtonDefault),
                         (false, signupButtonDefault)]
        buttonFinal := setButtonLoading busy false signupButtonDefault
        containerActiveRemoved := false
        consoleErrors := [("Signup Error:", m)] }

/-- Raw field values of the login form at submission time. -/
structure LoginInput where
  usernameRaw : String
  passwordRaw : String
deriving DecidableEq, Repr

/-- The JSON body sent to the login endpoint (auth.js line 182). -/
structure LoginBody where
  username : String
  password : String
deriving DecidableEq, Repr

/-- Effects performed by one run of the login submit handler: as for
signup, plus the localStorage.setItem writes as (key, value) pairs in
order, and the scheduled navigation as (delay ms, target page). -/
structure LoginEffects where
  netCall : Option LoginBody
  messages : List (String × String)
  buttonEvents : List (Bool × String)
  buttonFinal : Option ButtonState
  storageWrites : List (String × String)
  navScheduled : Option (Nat × String)
  consoleErrors : List (String × String)
deriving DecidableEq, Repr

/-- Default label of the login button (auth.js lines 177, 198). -/
def loginButtonDefault : String := "Sign In"

/-- The login submit handler (auth.js lines 167-200). Inputs are the
raw form fields, the button found in the document, and the outcome of
the awaited safeFetch call against the login endpoint. -/
def loginHandler (inp : LoginInput) (button : Option ButtonState)
    (net : Except String JsonBody) : LoginEffects :=
  let username := jsTrim inp.usernameRaw
  let password := inp.passwordRaw
  if username = "" ∨ password = "" then
    { netCall := none
      messages := [("⚠️ Username and password are required.", "error")]
      buttonEvents := []
      buttonFinal := button
      storageWrites := []
      navScheduled := none
      consoleErrors := [] }
  else
    let busy := setButtonLoading button true loginButtonDefault
    match net with
    | .ok data =>
      if jsTruthy data.token then
        { netCall := some { username := username, password := password }
          messages := [("✅ Login successful! Redirecting...", "success")]
          buttonEvents := [(true, loginButtonDefault),
                           (false, loginButtonDefault)]
          buttonFinal := setButtonLoading busy false loginButtonDefault
          storageWrites := [("todo_token", jsToString data.token),
                            ("todo_username", username)]
          navScheduled := some (1200, "app.html")
          consoleErrors := [] }
      else
        { netCall := some { username := username, password := password }
          messages := [(jsOrStr "❌ Login failed: No token received."
                          "❌ Login failed. Check credentials.", "error")]
          buttonEvents := [(true, loginButtonDefault),
                           (false, loginButtonDefault)]
          buttonFinal := setButtonLoading busy false loginButtonDefault
          storageWrites := []
          navScheduled := none
          consoleErrors := [("Login Error:",
                             "❌ Login failed: No token received.")] }
    | .error m =>
      { netCall := some { username := username, password := password }
        messages := [(jsOrStr m "❌ Login failed. Check credentials.",
                      "error")]
        buttonEvents := [(true, loginButtonDefault),
                         (false, loginButtonDefault)]
        buttonFinal := setButtonLoading busy false loginButtonDefault
        storageWrites := []
        navScheduled := none
        consoleErrors := [("Login Error:", m)] }

/-- Invariant of the message system: at most one hide timer scheduled by
showMessage is live, and any live one is the one recorded in the
showMessage timer handle. -/
def msgInv (s : MsgState) : Prop :=
  s.timers.length ≤ 1 ∧ ∀ t ∈ s.timers, s.hideTimer = some t.1

/-! Helper lemmas shared by several claims. -/

theorem jsTrim_eq_empty_of_whitespace (s : String)
    (h : ∀ c ∈ s.data, isJsWhitespace c = true) : jsTrim s = "" := by
  unfold jsTrim
  rw [List.dropWhile_eq_nil_iff.mpr h]
  rfl

theorem ne_empty_of_six_le_length (s : String) (h : 6 ≤ s.length) :
    s ≠ "" := by
  intro h0
  rw [h0] at h
  simp [String.length] at h

/-- C1: for every login submission with non-empty (trimmed) username and
non-empty password, if the endpoint call succeeds with a body whose
token field is the string abc, then durable storage receives
todo_token = abc and todo_username = the trimmed username, and a
navigation to app.html is scheduled after 1200 ms. -/
theorem login_success_persists_and_navigates
    (inp : LoginInput) (button : Option ButtonState) (body : JsonBody)
    (hu : jsTrim inp.usernameRaw ≠ "") (hp : inp.passwordRaw ≠ "")
    (ht : body.token = .str "abc") :
    (loginHandler inp button (.ok body)).storageWrites =
      [("todo_token", "abc"), ("todo_username", jsTrim inp.usernameRaw)] ∧
    (loginHandler inp button (.ok body)).navScheduled =
      some (1200, "app.html") := by
  have htr : jsTruthy (JSVal.str "abc") = true := by decide
  simp [loginHandler, hu, hp, htr, ht, jsToString]

theorem login_success_persists_and_navigates_witness :
    (loginHandler { usernameRaw := " alice ", passwordRaw := "pw" }
        (some { disabled := false, label := "Sign In" })
        (.ok { token := .str "abc" })).storageWrites =
      [("todo_token", "abc"), ("todo_username", jsTrim " alice ")] ∧
    (loginHandler { usernameRaw := " alice ", passwordRaw := "pw" }
        (some { disabled := false, label := "Sign In" })
        (.ok { token := .str "abc" })).navScheduled =
      some (1200, "app.html") :=
  login_success_persists_and_navigates _ _ _ (by decide) (by decide) rfl

/-- C2: for every login submission whose HTTP call succeeds but whose
parsed body lacks a truthy token field, the handler shows the
missing-token error, writes nothing to durable storage, and schedules
no navigation. -/
theorem login_missing_token_no_storage
    (inp : LoginInput) (button : Option ButtonState) (body : JsonBody)
    (hu : jsTrim inp.usernameRaw ≠ "") (hp : inp.passwordRaw ≠ "")
    (ht : jsTruthy body.token = false) :
    (loginHandler inp button (.ok body)).storageWrites = [] ∧
    (loginHandler inp button (.ok body)).messages =
      [("❌ Login failed: No token received.", "error")] ∧
    (loginHandler inp button (.ok body)).navScheduled = none := by
  simp [loginHandler, hu, hp, ht, jsOrStr]

theorem login_missing_token_no_storage_witness :
    (loginHandler { usernameRaw := "alice", passwordRaw := "pw" }
        (some { disabled := false, label := "Sign In" })
        (.ok { token := .str "" })).storageWrites = [] ∧
    (loginHandler { usernameRaw := "alice", passwordRaw := "pw" }
        (some { disabled := false, label := "Sign In" })
        (.ok { token := .str "" })).messages =
      [("❌ Login failed: No token received.", "error")] ∧
    (loginHandler { usernameRaw := "alice", passwordRaw := "pw" }
        (some { disabled := false, label := "Sign In" })
        (.ok { token := .str "" })).navScheduled = none :=
  login_missing_token_no_storage _ _ _ (by decide) (by decide) (by decide)

/-- C3 counterexample: a 500 response whose body has an empty-string
message field fails with the generic HTTP 500 message, not with the
empty string the claim demands. -/
theorem http_error_empty_message_counterexample :
    safeFetchHandleResponse false 500
      (.json { token := .undefined, message := .str "",
               error := .undefined }) = .error "HTTP 500" ∧
    "HTTP 500" ≠ "" := by
  exact ⟨rfl, by decide⟩

/-- C3 amended: for every response outside the success range whose body
parses as JSON, the wrapper fails with a message chosen by JavaScript
truthiness: the body message field when truthy, else the error field
when truthy, else the generic HTTP status string; in particular a
non-empty string message X yields exactly X, while an empty-string
message falls through to the fallback chain. -/
theorem http_error_message_precedence (status : Nat) (j : JsonBody) :
    (jsTruthy j.message = true →
      safeFetchHandleResponse false status (.json j) =
        .error (jsToString j.message)) ∧
    (jsTruthy j.message = false → jsTruthy j.error = true →
      safeFetchHandleResponse false status (.json j) =
        .error (jsToString j.error)) ∧
    (jsTruthy j.message = false → jsTruthy j.error = false →
      safeFetchHandleResponse false status (.json j) =
        .error ("HTTP " ++ toString status)) ∧
    (∀ X : String, j.message = .str X → X ≠ "" →
      safeFetchHandleResponse false status (.json j) = .error X) := by
  refine ⟨?_, ?_, ?_, ?_⟩
  · intro h1
    simp [safeFetchHandleResponse, jsOr, h1]
  · intro h1 h2
    simp [safeFetchHandleResponse, jsOr, h1, h2]
  · intro h1 h2
    simp [safeFetchHandleResponse, jsOr, h1, h2, jsToString]
  · intro X hX hne
    have h1 : jsTruthy (JSVal.str X) = true := by simp [jsTruthy, hne]
    simp [safeFetchHandleResponse, jsOr, hX, h1, jsToString]

theorem http_error_message_precedence_witness :
    safeFetchHandleResponse false 400
      (.json { token := .undefined, message := .str "Bad credentials",
               error := .undefined }) = .error "Bad credentials" ∧
    safeFetchHandleResponse false 503
      (.json { token := .undefined, message := .str "",
               error := .undefined }) = .error "HTTP 503" :=
  ⟨(http_error_message_precedence 400
      { token := .undefined, message := .str "Bad credentials",
        error := .undefined }).2.2.2 "Bad credentials" rfl (by decide),
   (http_error_message_precedence 503
      { token := .undefined, message := .str "",
        error := .undefined }).2.2.1 (by decide) (by decide)⟩

/-- C4: for every response arriving before the timeout whose body does
not parse as JSON, the wrapper fails with the invalid server response
error, whatever the status and ok flag, including success statuses. -/
theorem invalid_json_fails_any_status (timeout t : Nat) (ok : Bool)
    (status : Nat) (h : t < timeout) :
    (safeFetch timeout { arrivesAt := some t, ok := ok, status := status,
                         body := .invalid }).result =
      .error "Invalid server response" := by
  simp [safeFetch, h, safeFetchHandleResponse]

theorem invalid_json_fails_any_status_witness :
    (safeFetch 10000 { arrivesAt := some 50, ok := true, status := 200,
                       body := .invalid }).result =
      .error "Invalid server response" :=
  invalid_json_fails_any_status 10000 50 true 200 (by decide)

/-- C5: for every call to the wrapper, if the response does not settle
strictly before the timeout (or never settles), the in-flight request
is aborted and the call fails with the timed-out error; if the response
settles first, the abort timer is cancelled and no abort fires; calling
without a timeout argument uses the default of 10000 ms. -/
theorem safeFetch_timeout_behaviour (timeout : Nat) (f : FetchBehavior) :
    ((∀ t, f.arrivesAt = some t → timeout ≤ t) →
      (safeFetch timeout f).aborted = true ∧
      (safeFetch timeout f).result = .error timedOutMessage) ∧
    (∀ t, f.arrivesAt = some t → t < timeout →
      (safeFetch timeout f).aborted = false) ∧
    safeFetchDefault f = safeFetch 10000 f := by
  refine ⟨?_, ?_, rfl⟩
  · intro h
    cases hf : f.arrivesAt with
    | none => simp [safeFetch, hf]
    | some t =>
      have hle := h t hf
      simp [safeFetch, hf, Nat.not_lt.mpr hle]
  · intro t hf hlt
    simp [safeFetch, hf, hlt]

theorem safeFetch_timeout_behaviour_witness :
    ((safeFetch 100 { arrivesAt := some 250, ok := true, status := 200,
                      body := .invalid }).aborted = true ∧
     (safeFetch 100 { arrivesAt := some 250, ok := true, status := 200,
                      body := .invalid }).result =
       .error timedOutMessage) ∧
    (safeFetch 100 { arrivesAt := some 50, ok := true, status := 200,
                     body := .invalid }).aborted = false :=
  ⟨(safeFetch_timeout_behaviour 100
      { arrivesAt := some 250, ok := true, status := 200,
        body := .invalid }).1
      (by intro t ht; injection ht with h2; omega),
   (safeFetch_timeout_behaviour 100
      { arrivesAt := some 50, ok := true, status := 200,
        body := .invalid }).2.1 50 rfl (by decide)⟩

/-- C6: every signup submission whose trimmed username, trimmed email or
password is empty, or whose password is shorter than 6 characters,
makes no network call, never sets the button busy, leaves the button
untouched, and shows the corresponding validation message. -/
theorem signup_validation_no_network (inp : SignupInput)
    (button : Option ButtonState) (net : Except String JsonBody)
    (h : jsTrim inp.usernameRaw = "" ∨ jsTrim inp.emailRaw = "" ∨
         inp.passwordRaw = "" ∨ inp.passwordRaw.length < 6) :
    (signupHandler inp button net).netCall = none ∧
    (signupHandler inp button net).buttonEvents = [] ∧
    (signupHandler inp button net).buttonFinal = button ∧
    (jsTrim inp.usernameRaw = "" ∨ jsTrim inp.emailRaw = "" ∨
       inp.passwordRaw = "" →
      (signupHandler inp button net).messages =
        [("⚠️ All fields are required.", "error")]) ∧
    (jsTrim inp.usernameRaw ≠ "" → jsTrim inp.emailRaw ≠ "" →
       inp.passwordRaw ≠ "" →
      (signupHandler inp button net).messages =
        [("⚠️ Password must be at least 6 characters.", "error")]) := by
  by_cases h1 : jsTrim inp.usernameRaw = "" ∨ jsTrim inp.emailRaw = "" ∨
      inp.passwordRaw = ""
  · refine ⟨?_, ?_, ?_, fun _ => ?_, fun hu he hp => absurd h1 (by tauto)⟩ <;>
      simp [signupHandler, h1]
  · have h2 : inp.passwordRaw.length < 6 := by tauto
    refine ⟨?_, ?_, ?_, fun hc => absurd hc h1, fun _ _ _ => ?_⟩ <;>
      simp [signupHandler, h1, h2]

theorem signup_validation_no_network_witness :
    (signupHandler { usernameRaw := "bob", emailRaw := "bob@x.com",
                     passwordRaw := "123" } none
      (.error "unused")).netCall = none ∧
    (signupHandler { usernameRaw := "bob", emailRaw := "bob@x.com",
                     passwordRaw := "123" } none
      (.error "unused")).buttonEvents = [] ∧
    (signupHandler { usernameRaw := "bob", emailRaw := "bob@x.com",
                     passwordRaw := "123" } none
      (.error "unused")).messages =
      [("⚠️ Password must be at least 6 characters.", "error")] := by
  have h := signup_validation_no_network
    { usernameRaw := "bob", emailRaw := "bob@x.com", passwordRaw := "123" }
    none (.error "unused") (by right; right; right; decide)
  exact ⟨h.1, h.2.1, h.2.2.2.2 (by decide) (by decide) (by decide)⟩

/-- C7: every signup or login submission that passes local validation,
and so enters the submitting state, ends with the submit button
re-enabled and its default label restored, whatever the outcome of the
network call. -/
theorem handlers_restore_button
    (si : SignupInput) (li : LoginInput) (b b2 : ButtonState)
    (net net2 : Except String JsonBody)
    (hsu : jsTrim si.usernameRaw ≠ "") (hse : jsTrim si.emailRaw ≠ "")
    (hsp : si.passwordRaw ≠ "") (hsl : ¬ si.passwordRaw.length < 6)
    (hlu : jsTrim li.usernameRaw ≠ "") (hlp : li.passwordRaw ≠ "") :
    (signupHandler si (some b) net).buttonFinal =
      some { disabled := false, label := "Sign Up" } ∧
    (loginHandler li (some b2) net2).buttonFinal =
      some { disabled := false, label := "Sign In" } := by
  constructor
  · cases net <;>
      simp [signupHandler, hsu, hse, hsp, hsl, setButtonLoading,
            signupButtonDefault]
  · cases net2 with
    | error m =>
      simp [loginHandler, hlu, hlp, setButtonLoading, loginButtonDefault]
    | ok data =>
      by_cases ht : jsTruthy data.token = true <;>
        simp [loginHandler, hlu, hlp, ht, setButtonLoading,
              loginButtonDefault]

theorem handlers_restore_button_witness :
    (signupHandler { usernameRaw := "bob", emailRaw := "bob@x.com",
                     passwordRaw := "secret1" }
      (some { disabled := false, label := "Sign Up" })
      (.error "HTTP 500")).buttonFinal =
      some { disabled := false, label := "Sign Up" } ∧
    (loginHandler { usernameRaw := "alice", passwordRaw := "pw" }
      (some { disabled := false, label := "Sign In" })
      (.ok { token := .str "abc" })).buttonFinal =
      some { disabled := false, label := "Sign In" } :=
  handlers_restore_button
    { usernameRaw := "bob", emailRaw := "bob@x.com",
      passwordRaw := "secret1" }
    { usernameRaw := "alice", passwordRaw := "pw" }
    { disabled := false, label := "Sign Up" }
    { disabled := false, label := "Sign In" }
    (.error "HTTP 500") (.ok { token := .str "abc" })
    (by decide) (by decide) (by decide) (by decide) (by decide) (by decide)

/-- C8: showMessage keeps the single-visible-message invariant: when
the status element is absent the call is a silent no-op returning the
state unchanged; when it is present, the element afterwards shows
exactly the new text with the kind class and is visible, the
previously scheduled hide timer is cancelled, and exactly one hide
timer remains, scheduled after 5000 ms. -/
theorem showMessage_single_status (m ty : String) (s : MsgState)
    (hinv : msgInv s) :
    msgInv (showMessage m ty s) ∧
    (s.el = none → showMessage m ty s = s) ∧
    (s.el ≠ none →
      (showMessage m ty s).el =
        some { textContent := m, className := "message " ++ ty,
               display := "block" } ∧
      (showMessage m ty s).timers = [(s.nextId, 5000)]) := by
  have hclear : clearTimeoutOn s.timers s.hideTimer = [] := by
    cases h : s.hideTimer with
    | none =>
      cases ht : s.timers with
      | nil => rfl
      | cons a l =>
        exfalso
        have hmem := hinv.2 a (by rw [ht]; exact List.mem_cons_self a l)
        rw [h] at hmem
        exact Option.noConfusion hmem
    | some i =>
      simp only [clearTimeoutOn]
      rw [List.filter_eq_nil_iff]
      intro a ha
      have hmem := hinv.2 a ha
      rw [h] at hmem
      simp only [Option.some.injEq] at hmem
      simp [hmem]
  cases he : s.el with
  | none =>
    have hid : showMessage m ty s = s := by
      unfold showMessage
      rw [he]
    exact ⟨by rw [hid]; exact hinv, fun _ => hid, fun hne => absurd rfl hne⟩
  | some e =>
    have hm : showMessage m ty s =
        { el := some { textContent := m, className := "message " ++ ty,
                       display := "block" },
          hideTimer := some s.nextId,
          timers := [(s.nextId, 5000)],
          nextId := s.nextId + 1 } := by
      unfold showMessage
      rw [he, hclear]
      rfl
    refine ⟨?_, fun h0 => Option.noConfusion h0, fun _ => ?_⟩
    · rw [hm]
      exact ⟨by simp, by simp⟩
    · rw [hm]
      exact ⟨rfl, rfl⟩

theorem showMessage_single_status_witness :
    msgInv (showMessage "hi" "success"
      { el := some { textContent := "old", className := "message error",
                     display := "block" },
        hideTimer := some 0, timers := [(0, 5000)], nextId := 1 }) ∧
    (showMessage "hi" "success"
      { el := some { textContent := "old", className := "message error",
                     display := "block" },
        hideTimer := some 0, timers := [(0, 5000)], nextId := 1 }).timers =
      [(1, 5000)] := by
  have h := showMessage_single_status "hi" "success"
    { el := some { textContent := "old", className := "message error",
                   display := "block" },
      hideTimer := some 0, timers := [(0, 5000)], nextId := 1 }
    ⟨by decide, by decide⟩
  exact ⟨h.1, (h.2.2 (by simp)).2⟩

/-- C9: the console mirror performs the original logging behaviour on
all three channels with the same arguments in every case, drops a
nested mirrored call silently while one is already in flight (leaving
the whole state untouched, so the mirror never recurses), and always
leaves the guard as it found it, lowered after a completed call. -/
theorem console_mirror_guard (args : List String) (m ty : String)
    (s : ConsoleState) :
    (consoleLogWrapped args s).logged = s.logged ++ [("log", args)] ∧
    (consoleWarnWrapped args s).logged = s.logged ++ [("warn", args)] ∧
    (consoleErrorWrapped args s).logged = s.logged ++ [("error", args)] ∧
    (s.inShowMessage = true → safeShowMessage m ty s = s) ∧
    (safeShowMessage m ty s).inShowMessage = s.inShowMessage := by
  have hlog : ∀ m2 ty2 s2, (safeShowMessage m2 ty2 s2).logged = s2.logged := by
    intro m2 ty2 s2
    unfold safeShowMessage
    split <;> rfl
  refine ⟨?_, ?_, ?_, ?_, ?_⟩
  · simp [consoleLogWrapped, hlog]
  · simp [consoleWarnWrapped, hlog]
  · simp [consoleErrorWrapped, hlog]
  · intro h
    simp [safeShowMessage, h]
  · unfold safeShowMessage
    split <;> simp_all

theorem console_mirror_guard_witness :
    safeShowMessage "nested" "error"
      { inShowMessage := true,
        msg := { el := none, hideTimer := none, timers := [], nextId := 0 },
        logged := [] } =
      { inShowMessage := true,
        msg := { el := none, hideTimer := none, timers := [], nextId := 0 },
        logged := [] } ∧
    (consoleLogWrapped ["a", "b"]
      { inShowMessage := true,
        msg := { el := none, hideTimer := none, timers := [], nextId := 0 },
        logged := [] }).logged = [("log", ["a", "b"])] := by
  have h := console_mirror_guard ["a", "b"] "nested" "error"
    { inShowMessage := true,
      msg := { el := none, hideTimer := none, timers := [], nextId := 0 },
      logged := [] }
  exact ⟨h.2.2.2.1 rfl, h.1⟩

/-- C10: the signup handler trims username and email before the
emptiness check but not the password: a whitespace-only password of
length at least 6 passes validation and is sent verbatim in the
request body, while a whitespace-only username or email is rejected as
empty, with no network call and the required-fields message. -/
theorem signup_password_not_trimmed
    (inp : SignupInput) (button : Option ButtonState)
    (net : Except String JsonBody)
    (hu : jsTrim inp.usernameRaw ≠ "") (he : jsTrim inp.emailRaw ≠ "")
    (hw : ∀ c ∈ inp.passwordRaw.data, isJsWhitespace c = true)
    (hl : 6 ≤ inp.passwordRaw.length) :
    (signupHandler inp button net).netCall =
      some { username := jsTrim inp.usernameRaw,
             email := jsTrim inp.emailRaw,
             password := inp.passwordRaw } ∧
    (∀ inp2 : SignupInput,
      (∀ c ∈ inp2.usernameRaw.data, isJsWhitespace c = true) →
      (signupHandler inp2 button net).netCall = none ∧
      (signupHandler inp2 button net).messages =
        [("⚠️ All fields are required.", "error")]) ∧
    (∀ inp2 : SignupInput,
      (∀ c ∈ inp2.emailRaw.data, isJsWhitespace c = true) →
      (signupHandler inp2 button net).netCall = none ∧
      (signupHandler inp2 button net).messages =
        [("⚠️ All fields are required.", "error")]) := by
  refine ⟨?_, ?_, ?_⟩
  · have hp : inp.passwordRaw ≠ "" := ne_empty_of_six_le_length _ hl
    have hlen : ¬ inp.passwordRaw.length < 6 := by omega
    cases net <;> simp [signupHandler, hu, he, hp, hlen]
  · intro inp2 hw2
    have hu2 : jsTrim inp2.usernameRaw = "" :=
      jsTrim_eq_empty_of_whitespace _ hw2
    constructor <;> simp [signupHandler, hu2]
  · intro inp2 hw2
    have he2 : jsTrim inp2.emailRaw = "" :=
      jsTrim_eq_empty_of_whitespace _ hw2
    constructor <;> simp [signupHandler, he2]

theorem signup_password_not_trimmed_witness :
    (signupHandler { usernameRaw := "bob", emailRaw := "bob@x.com",
                     passwordRaw := "      " } none
      (.ok { token := .undefined })).netCall =
      some { username := jsTrim "bob", email := jsTrim "bob@x.com",
             password := "      " } ∧
    (signupHandler { usernameRaw := "   ", emailRaw := "bob@x.com",
                     passwordRaw := "secret1" } none
      (.ok { token := .undefined })).netCall = none := by
  have h := signup_password_not_trimmed
    { usernameRaw := "bob", emailRaw := "bob@x.com",
      passwordRaw := "      " } none (.ok { token := .undefined })
    (by decide) (by decide) (by decide) (by decide)
  exact ⟨h.1, (h.2.1 { usernameRaw := "   ", emailRaw := "bob@x.com",
                       passwordRaw := "secret1" } (by decide)).1⟩
